import Mathlib

/-!
Verification of the nano-web static file server core.

This file shallowly embeds the Rust sources of the nano-web repository
(`src/compression.rs`, `src/response_buffer.rs`, `src/security.rs`,
`src/http.rs`, `src/mime_types.rs`, `src/routes.rs`, `src/fast_routes.rs`,
`src/ultra_server.rs`) and proves or refutes the specification claims about
them.  Byte buffers are modelled as `List Nat` (or `String` where the source
manipulates text), machine integers as `Nat`, fallible operations as
`Except String`, and the concurrent `DashMap` stores as association lists
with first-match lookup (a later insert of the same key shadows the earlier
binding, which is observationally the overwrite the source performs).
External crates (compression codecs, the handlebars template engine,
`urlencoding`, `mime_guess`, `chrono`, `ahash`) are passed in as explicit
function parameters.
-/

set_option autoImplicit false
set_option maxRecDepth 10000

/-- Decidable equality for `Except`, so concrete results of the fallible
operations can be checked with `decide`. -/
instance exceptDecEq {ε α : Type} [DecidableEq ε] [DecidableEq α] :
    DecidableEq (Except ε α) := fun a b =>
  match a, b with
  | .ok x, .ok y =>
    if h : x = y then .isTrue (by rw [h])
    else .isFalse (fun c => h (Except.ok.inj c))
  | .ok _, .error _ => .isFalse (fun c => Except.noConfusion c)
  | .error _, .ok _ => .isFalse (fun c => Except.noConfusion c)
  | .error e, .error f =>
    if h : e = f then .isTrue (by rw [h])
    else .isFalse (fun c => h (Except.error.inj c))

namespace NanoWeb

/-- Substring test on character lists: `needle` occurs somewhere in the
haystack.  This models Rust's `str::contains(&str)` (used by
`Encoding::from_accept_encoding` and `CompressedContent::get_best_encoding`),
which is plain substring search, not token matching. -/
def hasSubList : List Char → List Char → Bool
  | [], needle => needle.isEmpty
  | hay@(_ :: rest), needle => needle.isPrefixOf hay || hasSubList rest needle

/-- Rust `haystack.contains(needle)` for strings. -/
def containsSub (hay needle : String) : Bool :=
  hasSubList hay.data needle.data

/-- `startsWith`, structurally recursive so concrete instances evaluate. -/
def strStartsWith (s pre : String) : Bool :=
  pre.data.isPrefixOf s.data

/-- `endsWith`, structurally recursive so concrete instances evaluate. -/
def strEndsWith (s suf : String) : Bool :=
  List.isSuffixOf suf.data s.data

/-- Character membership in a string. -/
def strContainsChar (s : String) (c : Char) : Bool :=
  s.data.contains c

/-- Drop the first `n` characters of a string. -/
def strDrop (s : String) (n : Nat) : String :=
  String.mk (s.data.drop n)

/-- Split a character list at every character satisfying `p` (pieces may be
empty, like Rust's `split` and Lean's `String.split`). -/
def splitPredList (p : Char → Bool) : List Char → List (List Char)
  | [] => [[]]
  | c :: rest =>
    match splitPredList p rest with
    | [] => if p c then [[], []] else [[c]]
    | g :: gs => if p c then [] :: g :: gs else (c :: g) :: gs

/-- Split a string at every occurrence of the character `sep`. -/
def strSplitChar (s : String) (sep : Char) : List String :=
  (splitPredList (fun c => c = sep) s.data).map String.mk

/-- Rust `str::split_whitespace`: split on whitespace runs, dropping empty
pieces. -/
def splitWhitespace (s : String) : List String :=
  ((splitPredList Char.isWhitespace s.data).map String.mk).filter
    (fun t => !t.data.isEmpty)

/-- Trim ASCII/Unicode whitespace from both ends, as `str::trim` /
`String.trim` do. -/
def strTrim (s : String) : String :=
  String.mk
    (((s.data.dropWhile Char.isWhitespace).reverse.dropWhile
      Char.isWhitespace).reverse)

/-- Join strings with a separator (as `join`/`intercalate` do). -/
def joinWith (sep : String) : List String → String
  | [] => ""
  | [x] => x
  | x :: xs => x ++ sep ++ joinWith sep xs

/-- Split a character list at every CRLF. -/
def splitCRLF : List Char → List (List Char)
  | [] => [[]]
  | '\r' :: '\n' :: rest =>
    match splitCRLF rest with
    | [] => [[], []]
    | gs => [] :: gs
  | c :: rest =>
    match splitCRLF rest with
    | [] => [[c]]
    | g :: gs => (c :: g) :: gs

/-- Split a character list at the first blank line (`\r\n\r\n`): the part
before it and the part after it. -/
def splitAtBlankLine : List Char → List Char × List Char
  | '\r' :: '\n' :: '\r' :: '\n' :: rest => ([], rest)
  | [] => ([], [])
  | c :: rest =>
    let ab := splitAtBlankLine rest
    (c :: ab.1, ab.2)

/-- Parse a nonempty all-digit string as a decimal number (`str::parse` /
`String.toNat?`). -/
def parseNat? (s : String) : Option Nat :=
  if s.data.isEmpty || !s.data.all Char.isDigit then none
  else some (s.data.foldl (fun n c => 10 * n + (c.toNat - 48)) 0)

/-- Lowercase hex digit for a value `< 16`, as produced by Rust's `{:x}`
formatting. -/
def hexDigit (d : Nat) : Char :=
  if d < 10 then Char.ofNat (48 + d) else Char.ofNat (87 + d)

/-- Fuel-driven base-16 digit extraction (structural recursion, so that
concrete instances evaluate inside the kernel). -/
def toHexDigitsAux : Nat → Nat → List Nat
  | 0, _ => []
  | fuel + 1, n => if n = 0 then [] else toHexDigitsAux fuel (n / 16) ++ [n % 16]

/-- Base-16 digits (most significant first) of `n`; empty for `0`. -/
def toHexDigits (n : Nat) : List Nat :=
  toHexDigitsAux (n + 1) n

/-- Rust `format!("{:x}", n)`: lowercase hex rendering of `n`. -/
def toHex (n : Nat) : String :=
  if n = 0 then "0" else String.mk ((toHexDigits n).map hexDigit)

/-- Numeric value of a hex digit character, if it is one (lowercase). -/
def hexVal (c : Char) : Option Nat :=
  if 48 ≤ c.toNat ∧ c.toNat ≤ 57 then some (c.toNat - 48)
  else if 97 ≤ c.toNat ∧ c.toNat ≤ 102 then some (c.toNat - 87)
  else none

/-- Value of a base-16 digit list (most significant first). -/
def hexListVal (ds : List Nat) : Nat :=
  ds.foldl (fun acc d => 16 * acc + d) 0

/-- Hex-digit values of a character list, all-or-nothing. -/
def hexValList : List Char → Option (List Nat)
  | [] => some []
  | c :: cs =>
    match hexVal c, hexValList cs with
    | some d, some ds => some (d :: ds)
    | _, _ => none

/-- Parse a nonempty lowercase hex string back to a number. -/
def fromHex (s : String) : Option Nat :=
  match s.data with
  | [] => none
  | cs => (hexValList cs).map hexListVal

/-! ## `src/compression.rs` -/

/-- `CompressedContent` from `src/compression.rs`: the identity body plus the
optional gzip / brotli / zstd variants. -/
structure CompressedContent where
  plain : List Nat
  gzip : Option (List Nat)
  brotli : Option (List Nat)
  zstd : Option (List Nat)
  deriving DecidableEq

/-- `CompressedContent::new` from `src/compression.rs`.  The three codecs
(`flate2`, `brotli`, `zstd` crates) are external and passed as parameters;
the source runs them via `rayon::join`, which is pure fan-out, so sequencing
the three calls is observationally identical.  If compression is off or the
body is shorter than 1024 bytes, only the plain body is kept; otherwise all
three variants are produced (any codec error fails the whole call). -/
def CompressedContent.new (gzipC brotliC zstdC : List Nat → Except String (List Nat))
    (content : List Nat) (should_compress : Bool) : Except String CompressedContent :=
  if !should_compress || content.length < 1024 then
    .ok { plain := content, gzip := none, brotli := none, zstd := none }
  else
    match gzipC content, brotliC content, zstdC content with
    | .ok g, .ok b, .ok z =>
        .ok { plain := content, gzip := some g, brotli := some b, zstd := some z }
    | .error e, _, _ => .error e
    | _, .error e, _ => .error e
    | _, _, .error e => .error e

/-- `CompressedContent::get_best_encoding` from `src/compression.rs`.  Each
branch fires exactly when the Accept-Encoding string contains the token as a
substring AND the corresponding variant is present (the source's
`contains && is_some` guard followed by `unwrap`). -/
def CompressedContent.get_best_encoding (self : CompressedContent)
    (accept_encoding : String) : String × List Nat :=
  match (if containsSub accept_encoding "zstd" then self.zstd else none) with
  | some z => ("zstd", z)
  | none =>
    match (if containsSub accept_encoding "br" then self.brotli else none) with
    | some b => ("br", b)
    | none =>
      match (if containsSub accept_encoding "gzip" then self.gzip else none) with
      | some g => ("gzip", g)
      | none => ("identity", self.plain)

/-! ## `src/response_buffer.rs` -/

/-- `Encoding` from `src/response_buffer.rs`. -/
inductive Encoding where
  | Identity
  | Gzip
  | Brotli
  | Zstd
  deriving DecidableEq

/-- `Encoding::from_accept_encoding` from `src/response_buffer.rs`: plain
substring checks (`accept.contains("br")` etc.) in the order br, zstd,
gzip. -/
def Encoding.from_accept_encoding (accept : String) : Encoding :=
  if containsSub accept "br" then .Brotli
  else if containsSub accept "zstd" then .Zstd
  else if containsSub accept "gzip" then .Gzip
  else .Identity

/-- `Encoding::header_value` from `src/response_buffer.rs`. -/
def Encoding.header_value : Encoding → Option String
  | .Identity => none
  | .Gzip => some "gzip"
  | .Brotli => some "br"
  | .Zstd => some "zstd"

/-- Serialize a header list the way every response builder in the source
does: one `Name: value\r\n` line per pair, in order. -/
def renderHeaderLines (headers : List (String × String)) : String :=
  String.join (headers.map (fun hv => hv.1 ++ ": " ++ hv.2 ++ "\r\n"))

/-- The header sequence written by `ResponseBuffer::build` in
`src/response_buffer.rs`, in the exact order of its `extend_from_slice`
calls: Content-Type, then Content-Encoding iff the encoding has a wire
token, then Content-Length / ETag / Last-Modified / Cache-Control, then the
three inline security headers. -/
def ResponseBuffer.buildHeaders (content_type : String) (encoding : Encoding)
    (etag last_modified cache_control : String) (bodyLen : Nat) :
    List (String × String) :=
  ("Content-Type", content_type) ::
    (match encoding.header_value with
      | some enc => [("Content-Encoding", enc)]
      | none => []) ++
    [("Content-Length", toString bodyLen),
     ("ETag", etag),
     ("Last-Modified", last_modified),
     ("Cache-Control", cache_control),
     ("X-Content-Type-Options", "nosniff"),
     ("X-Frame-Options", "SAMEORIGIN"),
     ("Referrer-Policy", "strict-origin-when-cross-origin")]

/-- `ResponseBuffer::build` from `src/response_buffer.rs`: the complete
HTTP/1.1 200 buffer (status line, headers, blank line, body).  The body is
modelled as a `String` of bytes; `Content-Length` uses its byte length
exactly as `body.len()` does. -/
def ResponseBuffer.build (content_type : String) (encoding : Encoding)
    (etag last_modified cache_control : String) (body : String) : String :=
  "HTTP/1.1 200 OK\r\n" ++
    renderHeaderLines
      (ResponseBuffer.buildHeaders content_type encoding etag last_modified
        cache_control body.utf8ByteSize) ++
    "\r\n" ++ body

/-- `ResponseBuffer::new` (the legacy constructor) from
`src/response_buffer.rs`: status line from the numeric code and text, then
the caller's headers verbatim, blank line, body. -/
def ResponseBuffer.new (status_code : Nat) (status_text : String)
    (headers : List (String × String)) (body : String) : String :=
  "HTTP/1.1 " ++ toString status_code ++ " " ++ status_text ++ "\r\n" ++
    renderHeaderLines headers ++ "\r\n" ++ body

/-- `ResponseBuffer::not_found` from `src/response_buffer.rs`. -/
def ResponseBuffer.not_found : String :=
  ResponseBuffer.new 404 "Not Found"
    [("Content-Type", "text/plain"), ("Content-Length", "9"),
     ("Cache-Control", "no-cache")]
    "Not Found"

/-- `ResponseBuffer::bad_request` from `src/response_buffer.rs`. -/
def ResponseBuffer.bad_request : String :=
  ResponseBuffer.new 400 "Bad Request"
    [("Content-Type", "text/plain"), ("Content-Length", "11"),
     ("Cache-Control", "no-cache")]
    "Bad Request"

/-- `ResponseBuffer::internal_error` from `src/response_buffer.rs`. -/
def ResponseBuffer.internal_error : String :=
  ResponseBuffer.new 500 "Internal Server Error"
    [("Content-Type", "text/plain"), ("Content-Length", "21"),
     ("Cache-Control", "no-cache")]
    "Internal Server Error"

/-! ## `src/http.rs` -/

/-- The header list written by `build_response` in `src/http.rs`: the
caller's headers followed by a `Content-Length` computed from the body's
byte length. -/
def buildResponseHeaders (headers : List (String × String)) (body : String) :
    List (String × String) :=
  headers ++ [("Content-Length", toString body.utf8ByteSize)]

/-- `build_response` from `src/http.rs`. -/
def build_response (status : Nat) (headers : List (String × String))
    (body : String) : String :=
  let status_text :=
    match status with
    | 200 => "OK"
    | 404 => "Not Found"
    | 500 => "Internal Server Error"
    | _ => "Unknown"
  "HTTP/1.1 " ++ toString status ++ " " ++ status_text ++ "\r\n" ++
    renderHeaderLines (buildResponseHeaders headers body) ++ "\r\n" ++ body

/-! ## `src/security.rs` -/

/-- `MAX_PATH_LENGTH` from `src/security.rs`. -/
def MAX_PATH_LENGTH : Nat := 1024

/-- `MAX_PATH_COMPONENTS` from `src/security.rs`. -/
def MAX_PATH_COMPONENTS : Nat := 32

/-- The characters rejected inside a path component by
`validate_request_path` (its `component.contains([...])` check). -/
def dangerousChars : List Char := ['\\', Char.ofNat 0, '<', '>', '|', '?', '*']

/-- The per-component loop of `validate_request_path` in `src/security.rs`:
skip empty components (doubled slashes), reject `.` / `..`, reject dangerous
characters, reject components starting with `.`, reject components longer
than 255 bytes, and accumulate the survivors in order. -/
def checkComponents : List String → List String → Except String (List String)
  | [], acc => .ok acc.reverse
  | c :: rest, acc =>
    if c.data.isEmpty then checkComponents rest acc
    else if c = ".." || c = "." then .error "Path traversal attempt detected"
    else if c.data.any (fun ch => dangerousChars.contains ch) then
      .error "Invalid characters in path component"
    else if strStartsWith c "." then .error "Access to hidden files denied"
    else if c.utf8ByteSize > 255 then .error "Path component too long"
    else checkComponents rest (c :: acc)

/-- `validate_request_path` from `src/security.rs`.  The percent decoder
(`urlencoding::decode`, an external crate) is a parameter returning `none`
on invalid encoding; on percent-free input it returns the input unchanged.
The checks mirror the source in order: byte length, leading `/`, decode, NUL
bytes, split on `/` skipping the first (empty) piece, component count, the
per-component loop, and reconstruction of the canonical joined path. -/
def validate_request_path (decode : String → Option String) (path : String) :
    Except String String :=
  if path.utf8ByteSize > MAX_PATH_LENGTH then .error "Path too long"
  else if !strStartsWith path "/" then .error "Path must start with /"
  else
    match decode path with
    | none => .error "Invalid URL encoding"
    | some decoded =>
      if strContainsChar decoded (Char.ofNat 0) then
        .error "Path contains null bytes"
      else
        let components := (strSplitChar decoded '/').drop 1
        if components.length > MAX_PATH_COMPONENTS then
          .error "Too many path components"
        else
          match checkComponents components [] with
          | .error e => .error e
          | .ok sanitized =>
            .ok (if sanitized.isEmpty then "/"
                 else "/" ++ joinWith "/" sanitized)

/-- `urlencoding::decode` restricted to percent-free input, on which the
crate returns the string unchanged.  Used to instantiate the `decode`
parameter at concrete inputs that contain no `%`. -/
def decodePlain (s : String) : Option String :=
  if strContainsChar s '%' then none else some s

/-- The method allow-list of `parse_request_line_secure`
(`match method { "GET" | "HEAD" | "OPTIONS" => ... }`). -/
def methodAllowed (method : String) : Bool :=
  method = "GET" || method = "HEAD" || method = "OPTIONS"

/-- The version allow-list of `parse_request_line_secure`
(`matches!(version, "HTTP/1.0" | "HTTP/1.1")`). -/
def versionAllowed (version : String) : Bool :=
  version = "HTTP/1.0" || version = "HTTP/1.1"

/-- `parse_request_line_secure` from `src/security.rs`: reject over-long
lines, split the trimmed line on whitespace into exactly three parts, accept
only the methods GET / HEAD / OPTIONS, only versions HTTP/1.0 / HTTP/1.1,
and reject over-long paths. -/
def parse_request_line_secure (line : String) :
    Except String (String × String × String) :=
  if line.utf8ByteSize > 4096 then .error "Request line too long"
  else
    match splitWhitespace (strTrim line) with
    | [method, path, version] =>
      if methodAllowed method then
        if versionAllowed version then
          if path.utf8ByteSize > MAX_PATH_LENGTH then
            .error "Request path too long"
          else .ok (method, path, version)
        else .error "Unsupported HTTP version"
      else .error "Method not allowed"
    | _ => .error "Invalid HTTP request line format"

/-! ## `src/mime_types.rs` -/

/-- `DEFAULT_MIME` from `src/mime_types.rs`. -/
def DEFAULT_MIME : String := "application/octet-stream"

/-- `MimeConfig` from `src/mime_types.rs`. -/
structure MimeConfig where
  mime_type : String
  is_compressible : Bool
  is_templatable : Bool
  deriving DecidableEq

/-- `is_compressible` from `src/mime_types.rs`: the fixed allow-list. -/
def is_compressible (mime_type : String) : Bool :=
  mime_type = "text/html" || mime_type = "text/css" ||
  mime_type = "text/javascript" || mime_type = "text/plain" ||
  mime_type = "text/csv" || mime_type = "text/markdown" ||
  mime_type = "text/cache-manifest" || mime_type = "application/json" ||
  mime_type = "application/ld+json" ||
  mime_type = "application/manifest+json" || mime_type = "text/xml" ||
  mime_type = "application/xml" || mime_type = "application/rss+xml" ||
  mime_type = "application/atom+xml" || mime_type = "image/svg+xml"

/-- `is_templatable` from `src/mime_types.rs`. -/
def is_templatable (mime_type : String) : Bool :=
  mime_type = "text/html"

/-- `is_asset` from `src/mime_types.rs`. -/
def is_asset (mime_type : String) : Bool :=
  mime_type = "text/css" || mime_type = "text/javascript" ||
  strStartsWith mime_type "image/" || strStartsWith mime_type "font/" ||
  mime_type = "application/vnd.ms-fontobject" ||
  strStartsWith mime_type "audio/" || strStartsWith mime_type "video/"

/-- `get_cache_control` from `src/mime_types.rs`. -/
def get_cache_control (mime_type : String) : String :=
  if is_asset mime_type then "public, max-age=31536000, immutable"
  else if mime_type = "text/html" then "public, max-age=900"
  else "public, max-age=3600"

/-- `MimeConfig::new` from `src/mime_types.rs`. -/
def MimeConfig.mkNew (mime_type : String) : MimeConfig :=
  { mime_type := mime_type,
    is_compressible := NanoWeb.is_compressible mime_type,
    is_templatable := NanoWeb.is_templatable mime_type }

/-- `get_mime_config` from `src/mime_types.rs`.  The extension table of the
external `mime_guess` crate is the `guess` parameter; a `none` guess falls
back to `DEFAULT_MIME`. -/
def get_mime_config (guess : String → Option String) (path : String) :
    MimeConfig :=
  MimeConfig.mkNew ((guess path).getD DEFAULT_MIME)

/-! ## `src/routes.rs`

The `DashMap` stores are modelled as association lists with first-match
lookup; an insert prepends, which shadows any earlier binding for the same
key exactly as `DashMap::insert` overwrites it.  File times are `Nat`
nanoseconds since the Unix epoch (`SystemTime` compares at nanosecond
precision; `as_secs` is division by `10^9`). -/

/-- The external collaborators of the route pipeline, passed as explicit
functions: the filesystem (`std::fs::read` / `std::fs::metadata`), the three
compression codecs, the template engine (`render_template` over handlebars,
already specialised to the configured env-var prefix, operating on the
UTF-8-lossy text of the bytes), the `mime_guess` extension table, the
`chrono` HTTP-date formatter, the `ahash` hasher, and the public directory
the server was started on. -/
structure Env where
  readFile : String → Option (List Nat)
  statMtime : String → Option Nat
  gzipC : List Nat → Except String (List Nat)
  brotliC : List Nat → Except String (List Nat)
  zstdC : List Nat → Except String (List Nat)
  renderT : List Nat → Except String (List Nat)
  guessMime : String → Option String
  httpDate : Nat → String
  ahash : Nat → Nat → Nat
  publicDir : String

/-- `CachedRoute` from `src/routes.rs`. -/
structure CachedRoute where
  content : CompressedContent
  path : String
  modified : Nat
  deriving DecidableEq

/-- Modelled from the spec: the six-argument `ResponseBuffer::new`
constructor that `src/routes.rs` calls (body, content type, optional
encoding token, etag, last-modified, cache-control) is not under `src/`;
per §3/§4.D a pre-built response is an immutable buffer determined by
exactly those fields, so it is modelled as a record of them. -/
structure PreBuilt where
  body : List Nat
  content_type : String
  enc : Option String
  etag : String
  last_modified : String
  cache_control : String
  deriving DecidableEq

/-- `NanoWeb`'s state from `src/routes.rs`: the `routes` map plus the four
per-encoding maps of the `ResponseCache`. -/
structure ServerState where
  routes : List (String × CachedRoute)
  respIdentity : List (String × PreBuilt)
  respGzip : List (String × PreBuilt)
  respBrotli : List (String × PreBuilt)
  respZstd : List (String × PreBuilt)
  deriving DecidableEq

/-- `NanoWeb::generate_etag` from `src/routes.rs`: quoted lowercase hex of
the mtime in whole Unix seconds and the body length, joined by `-`. -/
def generate_etag (modifiedNanos : Nat) (content : List Nat) : String :=
  "\"" ++ toHex (modifiedNanos / 1000000000) ++ "-" ++ toHex content.length ++ "\""

/-- The templating step inside `NanoWeb::create_route` /
`UltraFastServer::create_fast_route`: render when the MIME config says
templatable, fall back to the original bytes when the engine errors. -/
def routeProcessed (env : Env) (filePath : String) (content : List Nat) :
    List Nat :=
  if (get_mime_config env.guessMime filePath).is_templatable then
    match env.renderT content with
    | .ok t => t
    | .error _ => content
  else content

/-- `file_path_to_url` from `src/routes.rs` / `src/fast_routes.rs`:
strip the public-directory prefix and prepend `/` (backslash replacement is
the identity on the `/`-separated paths modelled here). -/
def filePathToUrl (filePath publicDir : String) : Except String String :=
  if strStartsWith filePath (publicDir ++ "/") then
    .ok ("/" ++ String.mk
      (((filePath.data.drop (publicDir ++ "/").length)).map
        (fun c => if c = '\\' then '/' else c)))
  else .error "strip error"

/-- Insert an optional per-encoding response into one of the
`ResponseCache` maps, as the three `if let Some(data)` blocks of
`create_route` do. -/
def insOpt (url : String) (variant : Option (List Nat)) (label : String)
    (ct etag lm cc : String) (m : List (String × PreBuilt)) :
    List (String × PreBuilt) :=
  match variant with
  | some d => (url, ⟨d, ct, some label, etag, lm, cc⟩) :: m
  | none => m

/-- `NanoWeb::create_route` from `src/routes.rs`: read the file, classify,
template, compress, compute etag / last-modified / cache-control once, then
insert one pre-built response per present encoding into the response cache
under the file's canonical URL, and return the `CachedRoute`.  All fallible
steps precede the inserts, as in the source, so an error mutates nothing. -/
def create_route (env : Env) (st : ServerState) (filePath : String)
    (mtime : Nat) : Except String (String × CachedRoute × ServerState) :=
  match env.readFile filePath with
  | none => .error "read failed"
  | some content =>
    match CompressedContent.new env.gzipC env.brotliC env.zstdC
        (routeProcessed env filePath content)
        (get_mime_config env.guessMime filePath).is_compressible with
    | .error e => .error e
    | .ok compressed =>
      match filePathToUrl filePath env.publicDir with
      | .error e => .error e
      | .ok url =>
        .ok (url, ⟨compressed, filePath, mtime⟩,
          { st with
            respIdentity :=
              (url, ⟨compressed.plain,
                (get_mime_config env.guessMime filePath).mime_type, none,
                generate_etag mtime compressed.plain, env.httpDate mtime,
                get_cache_control
                  (get_mime_config env.guessMime filePath).mime_type⟩) ::
                st.respIdentity,
            respGzip := insOpt url compressed.gzip "gzip"
              (get_mime_config env.guessMime filePath).mime_type
              (generate_etag mtime compressed.plain) (env.httpDate mtime)
              (get_cache_control
                (get_mime_config env.guessMime filePath).mime_type)
              st.respGzip,
            respBrotli := insOpt url compressed.brotli "br"
              (get_mime_config env.guessMime filePath).mime_type
              (generate_etag mtime compressed.plain) (env.httpDate mtime)
              (get_cache_control
                (get_mime_config env.guessMime filePath).mime_type)
              st.respBrotli,
            respZstd := insOpt url compressed.zstd "zstd"
              (get_mime_config env.guessMime filePath).mime_type
              (generate_etag mtime compressed.plain) (env.httpDate mtime)
              (get_cache_control
                (get_mime_config env.guessMime filePath).mime_type)
              st.respZstd })

/-- `NanoWeb::refresh_if_modified` from `src/routes.rs` (the variant taking
`public_dir` explicitly): if the queried URL has a route whose source file
now has a newer mtime, rebuild via `create_route` and insert the new
`CachedRoute` under the rebuilt file's canonical URL (`new_url`), returning
`true`; otherwise `false`.  Filesystem or rebuild errors propagate without
touching the state. -/
def refresh_if_modified (env : Env) (st : ServerState) (url_path : String) :
    Except String (Bool × ServerState) :=
  match st.routes.lookup url_path with
  | none => .ok (false, st)
  | some route =>
    match env.statMtime route.path with
    | none => .error "metadata failed"
    | some modifiedNow =>
      if route.modified < modifiedNow then
        match create_route env st route.path modifiedNow with
        | .error e => .error e
        | .ok (new_url, new_route, st1) =>
          .ok (true, { st1 with routes := (new_url, new_route) :: st1.routes })
      else .ok (false, st)

/-! ## `src/fast_routes.rs` -/

/-- `FastRouteHeaders` from `src/fast_routes.rs`. -/
structure FastRouteHeaders where
  content_type : String
  last_modified : String
  etag : String
  cache_control : String
  deriving DecidableEq

/-- `FastRoute` from `src/fast_routes.rs`. -/
structure FastRoute where
  content : CompressedContent
  path : String
  modified : Nat
  headers : FastRouteHeaders
  deriving DecidableEq

/-- `UltraFastServer::generate_fast_etag` from `src/fast_routes.rs`: the
mtime in nanoseconds and the body length are fed to an `ahash` hasher (the
external crate is the `hash` parameter) and the single 64-bit result is
rendered as one quoted lowercase hex number — there is no `-` separator and
no direct mtime/length rendering. -/
def generate_fast_etag (hash : Nat → Nat → Nat) (modifiedNanos : Nat)
    (content : List Nat) : String :=
  "\"" ++ toHex (hash modifiedNanos content.length) ++ "\""

/-- `UltraFastServer::create_fast_route` from `src/fast_routes.rs`: same
read / classify / template / compress pipeline as `create_route`, but the
headers carry `generate_fast_etag` and no response cache is populated (the
mmap `static_cache` side table is irrelevant to the claims and omitted). -/
def create_fast_route (env : Env) (filePath : String) (mtime : Nat) :
    Except String (String × FastRoute) :=
  match env.readFile filePath with
  | none => .error "read failed"
  | some content =>
    match CompressedContent.new env.gzipC env.brotliC env.zstdC
        (routeProcessed env filePath content)
        (get_mime_config env.guessMime filePath).is_compressible with
    | .error e => .error e
    | .ok compressed =>
      match filePathToUrl filePath env.publicDir with
      | .error e => .error e
      | .ok url =>
        .ok (url,
          ⟨compressed, filePath, mtime,
            ⟨(get_mime_config env.guessMime filePath).mime_type,
             env.httpDate mtime,
             generate_fast_etag env.ahash mtime compressed.plain,
             get_cache_control
               (get_mime_config env.guessMime filePath).mime_type⟩⟩)

/-! ## `src/ultra_server.rs` -/

/-- The static `HEALTH_RESPONSE` buffer from `write_health_response` in
`src/ultra_server.rs`, byte for byte: a pre-computed response whose
timestamp field is the constant epoch string. -/
def HEALTH_RESPONSE : String :=
  "HTTP/1.1 200 OK\r\nContent-Type: application/json\r\nContent-Length: 49\r\nCache-Control: no-cache\r\n\r\n\x7b\"status\":\"ok\",\"timestamp\":\"1970-01-01T00:00:00Z\"\x7d"

/-- The status-code dispatch of `handle_ultra_fast_connection` in
`src/ultra_server.rs`, from the parsed first request line onward: a request
line rejected by `parse_request_line_secure` gets 400, a path rejected by
`validate_request_path` gets 400, `/_health` gets the 200 health response,
then route lookup (exact path, then with a trailing slash appended, then the
SPA fallback to `/`) yields 200 on a hit and 404 otherwise.  `hasRoute` is
the `routes` map domain. -/
def handleRequestStatus (decode : String → Option String)
    (hasRoute : String → Bool) (spaMode : Bool) (firstLine : String) : Nat :=
  match parse_request_line_secure firstLine with
  | .error _ => 400
  | .ok (_, raw_path, _) =>
    match validate_request_path decode raw_path with
    | .error _ => 400
    | .ok path =>
      if path = "/_health" then 200
      else
        let found := hasRoute path ||
          (!strEndsWith path "/" && hasRoute (path ++ "/")) ||
          (spaMode && hasRoute "/")
        if found then 200 else 404

/-! ## Response-buffer inspection helpers

These parse a rendered response buffer back into its parts, so the theorems
below can speak about "the Content-Length header" or "the body following the
blank line" of a concrete buffer. -/

/-- The status line and headers of a response buffer (everything before the
first blank line). -/
def headerSection (resp : String) : String :=
  String.mk (splitAtBlankLine resp.data).1

/-- The body of a response buffer: everything after the first blank line. -/
def bodySection (resp : String) : String :=
  String.mk (splitAtBlankLine resp.data).2

/-- The numeric status code of a response buffer. -/
def statusCodeOf (resp : String) : Option Nat :=
  ((strSplitChar resp ' ').drop 1).head?.bind parseNat?

/-- The value of the first header named `name` in a response buffer. -/
def headerValueOf (name : String) (resp : String) : Option String :=
  (((splitCRLF (headerSection resp).data).map String.mk).filterMap
    (fun line =>
      if strStartsWith line (name ++ ": ") then
        some (strDrop line (name ++ ": ").length)
      else none)).head?

/-- The numeric value of the Content-Length header of a response buffer. -/
def contentLengthOf (resp : String) : Option Nat :=
  (headerValueOf "Content-Length" resp).bind parseNat?

/-! ## Definitions taken from the specification's words

These are comparison points for refutations; they are deliberately built
from the spec text, not from the source. -/

/-- Modelled from the spec (§4.E negotiation): tokenize the Accept-Encoding
string by `,`, strip any `;` parameters, trim, and pick by whole-token
membership with priority br > zstd > gzip. -/
def specSelectEncoding (accept : String) : Encoding :=
  let tokens := (strSplitChar accept ',').map (fun t =>
    strTrim ((strSplitChar t ';').headD ""))
  if tokens.contains "br" then .Brotli
  else if tokens.contains "zstd" then .Zstd
  else if tokens.contains "gzip" then .Gzip
  else .Identity

/-- Zero-padded two-digit decimal rendering. -/
def pad2 (n : Nat) : String :=
  if n < 10 then "0" ++ toString n else toString n

/-- Zero-padded four-digit decimal rendering. -/
def pad4 (n : Nat) : String :=
  if n < 10 then "000" ++ toString n
  else if n < 100 then "00" ++ toString n
  else if n < 1000 then "0" ++ toString n
  else toString n

/-- Proleptic-Gregorian civil date for a day count since 1970-01-01
(Hinnant's `civil_from_days` algorithm, valid for non-negative epochs). -/
def civilFromDays (days : Nat) : Nat × Nat × Nat :=
  let z := days + 719468
  let era := z / 146097
  let doe := z % 146097
  let yoe := (doe - doe / 1460 + doe / 36524 - doe / 146096) / 365
  let y := yoe + era * 400
  let doy := doe - (365 * yoe + yoe / 4 - yoe / 100)
  let mp := (5 * doy + 2) / 153
  let d := doy - (153 * mp + 2) / 5 + 1
  let m := if mp < 10 then mp + 3 else mp - 9
  (if m ≤ 2 then y + 1 else y, m, d)

/-- Modelled from the spec (§6 health endpoint): the RFC 3339 rendering
`YYYY-MM-DDTHH:MM:SSZ` of a Unix time in seconds, i.e. the `<rfc3339-now>`
the spec says the health body carries. -/
def rfc3339OfUnixSecs (t : Nat) : String :=
  let days := t / 86400
  let sod := t % 86400
  let ymd := civilFromDays days
  pad4 ymd.1 ++ "-" ++ pad2 ymd.2.1 ++ "-" ++ pad2 ymd.2.2 ++ "T" ++
    pad2 (sod / 3600) ++ ":" ++ pad2 (sod % 3600 / 60) ++ ":" ++
    pad2 (sod % 60) ++ "Z"

/-- The health body the claim asserts for a request served at Unix time
`t`: `\x7b"status":"ok","timestamp":"<rfc3339 t>"\x7d`. -/
def claimedHealthBody (t : Nat) : String :=
  "\x7b\"status\":\"ok\",\"timestamp\":\"" ++ rfc3339OfUnixSecs t ++ "\"\x7d"

/-- The stored variant a `get_best_encoding` label names: the option field
for a compressed label, the plain body for `identity`. -/
def variantFor (cc : CompressedContent) : String → Option (List Nat)
  | "zstd" => cc.zstd
  | "br" => cc.brotli
  | "gzip" => cc.gzip
  | "identity" => some cc.plain
  | _ => none

/-! ## Concrete fixtures for witnesses and counterexamples -/

/-- Stand-in for an external codec that always succeeds (witnesses only
quantify over codecs, so any concrete one will do). -/
def okCodec : List Nat → Except String (List Nat) := fun c => .ok c

/-- A concrete environment: one three-byte HTML file `pub/index.html` whose
mtime on disk is 5 s, an always-failing template engine (the source then
serves the raw bytes), identity codecs, and a summing stand-in for the
external `ahash`. -/
def env0 : Env :=
  { readFile := fun p => if p = "pub/index.html" then some [7, 8, 9] else none,
    statMtime := fun p => if p = "pub/index.html" then some 5000000000 else none,
    gzipC := okCodec, brotliC := okCodec, zstdC := okCodec,
    renderT := fun _ => .error "engine unavailable",
    guessMime := fun p => if strEndsWith p ".html" then some "text/html" else none,
    httpDate := fun n => "date-" ++ toString (n / 1000000000),
    ahash := fun a b => a + b,
    publicDir := "pub" }

/-- The stale cached route for `pub/index.html` (mtime 3 s, body `[1, 2]`). -/
def r0 : CachedRoute :=
  ⟨⟨[1, 2], none, none, none⟩, "pub/index.html", 3000000000⟩

/-- The stale pre-built identity response for `r0`. -/
def oldPB : PreBuilt :=
  ⟨[1, 2], "text/html", none, "\"3-2\"", "date-3", "public, max-age=900"⟩

/-- A server state in which `/index.html` and its directory alias `/` both
hold the stale route and stale identity buffer, exactly as boot-time
population leaves them. -/
def st0 : ServerState :=
  { routes := [("/", r0), ("/index.html", r0)],
    respIdentity := [("/", oldPB), ("/index.html", oldPB)],
    respGzip := [], respBrotli := [], respZstd := [] }

/-! ## Supporting lemmas -/

theorem hexListVal_append_single (ds : List Nat) (d : Nat) :
    hexListVal (ds ++ [d]) = 16 * hexListVal ds + d := by
  simp [hexListVal, List.foldl_append]

theorem toHexDigitsAux_all_lt :
    ∀ fuel n d, d ∈ toHexDigitsAux fuel n → d < 16 := by
  intro fuel
  induction fuel with
  | zero => intro n d hd; simp [toHexDigitsAux] at hd
  | succ fuel ih =>
    intro n d hd
    rw [toHexDigitsAux] at hd
    by_cases h0 : n = 0
    · simp [h0] at hd
    · rw [if_neg h0] at hd
      rcases List.mem_append.mp hd with h | h
      · exact ih _ _ h
      · rcases List.mem_singleton.mp h with rfl
        exact Nat.mod_lt _ (by decide)

theorem hexListVal_toHexDigitsAux :
    ∀ fuel n, n ≤ fuel → hexListVal (toHexDigitsAux fuel n) = n := by
  intro fuel
  induction fuel with
  | zero =>
    intro n h
    interval_cases n
    simp [toHexDigitsAux, hexListVal]
  | succ fuel ih =>
    intro n h
    rw [toHexDigitsAux]
    by_cases h0 : n = 0
    · simp [h0, hexListVal]
    · rw [if_neg h0, hexListVal_append_single,
        ih (n / 16) (by
          have hlt : n / 16 < n := Nat.div_lt_self (Nat.pos_of_ne_zero h0) (by decide)
          omega)]
      exact Nat.div_add_mod n 16

theorem toHexDigits_all_lt (n d : Nat) (hd : d ∈ toHexDigits n) : d < 16 :=
  toHexDigitsAux_all_lt _ _ _ hd

theorem hexListVal_toHexDigits (n : Nat) : hexListVal (toHexDigits n) = n :=
  hexListVal_toHexDigitsAux _ _ (Nat.le_succ n)

theorem hexVal_hexDigit : ∀ d, d < 16 → hexVal (hexDigit d) = some d := by
  decide

theorem hexValList_map_hexDigit :
    ∀ ds : List Nat, (∀ d ∈ ds, d < 16) →
      hexValList (ds.map hexDigit) = some ds := by
  intro ds
  induction ds with
  | nil => intro; rfl
  | cons d rest ih =>
    intro hb
    have h1 : hexVal (hexDigit d) = some d :=
      hexVal_hexDigit d (hb d (List.mem_cons_self d rest))
    have h2 : hexValList (rest.map hexDigit) = some rest :=
      ih (fun x hx => hb x (List.mem_cons_of_mem d hx))
    simp [hexValList, h1, h2]

theorem toHexDigits_ne_nil (n : Nat) (h : n ≠ 0) : toHexDigits n ≠ [] := by
  rw [toHexDigits, toHexDigitsAux, if_neg h]
  simp

theorem fromHex_toHex (n : Nat) : fromHex (toHex n) = some n := by
  by_cases h0 : n = 0
  · subst h0; decide
  · rw [toHex, if_neg h0]
    have hne := toHexDigits_ne_nil n h0
    have hlt := toHexDigits_all_lt n
    rcases hds : toHexDigits n with _ | ⟨d, rest⟩
    · exact absurd hds hne
    · have hv : hexValList ((d :: rest).map hexDigit) = some (d :: rest) := by
        apply hexValList_map_hexDigit
        intro x hx
        exact hlt x (hds ▸ hx)
      have hval : hexListVal (d :: rest) = n := by
        have := hexListVal_toHexDigits n
        rwa [hds] at this
      have hv2 : hexValList (hexDigit d :: List.map hexDigit rest) =
          some (d :: rest) := by simpa using hv
      show (hexValList (hexDigit d :: List.map hexDigit rest)).map hexListVal =
        some n
      simp [hv2, hval]

theorem hexDigit_ne_dash : ∀ d, d < 16 → hexDigit d ≠ '-' := by decide

/-- String append acts as list append on the underlying characters. -/
theorem strDataAppend (a b : String) : (a ++ b).data = a.data ++ b.data := rfl

theorem dash_not_mem_toHex (n : Nat) : '-' ∉ (toHex n).data := by
  by_cases h0 : n = 0
  · subst h0; decide
  · rw [toHex, if_neg h0]
    intro hmem
    rcases List.mem_map.mp hmem with ⟨d, hd, heq⟩
    exact hexDigit_ne_dash d (toHexDigits_all_lt n d hd) heq

/-! ## Claim theorems -/

/-- Claim C1.  The source's encoding negotiation does NOT tokenize: both
`Encoding::from_accept_encoding` and `CompressedContent::get_best_encoding`
use plain substring matching, so `select_encoding("vibrant")` yields Brotli
(the substring `br` of `vibrant` matches) where the claim demands Identity,
and `get_best_encoding` even prefers zstd over br, returning `zstd` for
`"gzip, br, zstd"` where the claim demands Brotli.  This theorem evaluates
the code at the failing inputs, alongside the spec's tokenized negotiation
(`specSelectEncoding`) which behaves as the claim says. -/
theorem claim1_substring_negotiation :
    Encoding.from_accept_encoding "vibrant" = Encoding.Brotli ∧
    specSelectEncoding "vibrant" = Encoding.Identity ∧
    Encoding.from_accept_encoding "vibrant" ≠ specSelectEncoding "vibrant" ∧
    Encoding.from_accept_encoding "gzip, br, zstd" = Encoding.Brotli ∧
    Encoding.from_accept_encoding "gzip, zstd" = Encoding.Zstd ∧
    Encoding.from_accept_encoding "" = Encoding.Identity ∧
    (CompressedContent.get_best_encoding
      ⟨[1], some [2], some [3], some [4]⟩ "vibrant").1 = "br" ∧
    (CompressedContent.get_best_encoding
      ⟨[1], some [2], some [3], some [4]⟩ "gzip, br, zstd").1 = "zstd" := by
  decide

/-- Claim C2.  `validate_request_path` rejects EVERY component that starts
with `.` — it has no `.well-known` exception, so `validate("/.env")` and
`validate("/.well-known/security.txt")` both fail with the same error, even
though the repository's own integration tests (and the spec) expect
`.well-known` paths to pass validation.  A dot-free path is accepted, so
the rejection is specifically about the leading dot. -/
theorem claim2_wellknown_rejected :
    validate_request_path decodePlain "/.well-known/security.txt" =
      Except.error "Access to hidden files denied" ∧
    validate_request_path decodePlain "/.env" =
      Except.error "Access to hidden files denied" ∧
    validate_request_path decodePlain "/well-known/security.txt" =
      Except.ok "/well-known/security.txt" := by
  decide

/-- Claim C6, counterexample.  The claim says the `/_health` body embeds the
RFC 3339 rendering of the serving time.  The source's `write_health_response`
writes a static pre-computed buffer whose timestamp field is the constant
`1970-01-01T00:00:00Z`; at serving time `1760227200` (2025-10-12) the body
the claim requires differs from the body the code sends. -/
theorem claim6_counterexample :
    bodySection HEALTH_RESPONSE ≠ claimedHealthBody 1760227200 ∧
    claimedHealthBody 1760227200 =
      "\x7b\"status\":\"ok\",\"timestamp\":\"2025-10-12T00:00:00Z\"\x7d" ∧
    bodySection HEALTH_RESPONSE =
      "\x7b\"status\":\"ok\",\"timestamp\":\"1970-01-01T00:00:00Z\"\x7d" := by
  decide

/-- Claim C6, amended.  `GET /_health` is answered from ultra_server's fixed
pre-computed buffer: status 200, `Content-Type: application/json`, and the
constant body `\x7b"status":"ok","timestamp":"1970-01-01T00:00:00Z"\x7d`
(the timestamp is the epoch constant, not the serving time); the dispatcher
routes `/_health` to it with status 200. -/
theorem claim6_health_fixed_response :
    statusCodeOf HEALTH_RESPONSE = some 200 ∧
    headerValueOf "Content-Type" HEALTH_RESPONSE = some "application/json" ∧
    bodySection HEALTH_RESPONSE =
      "\x7b\"status\":\"ok\",\"timestamp\":\"1970-01-01T00:00:00Z\"\x7d" ∧
    handleRequestStatus decodePlain (fun _ => false) false
      "GET /_health HTTP/1.1" = 200 := by
  decide

/-- Claim C3, counterexample.  The claim says the parser accepts exactly GET
and HEAD and that any other method is answered with 405.  The source's
`parse_request_line_secure` also accepts OPTIONS, and in
`handle_ultra_fast_connection` a request line whose method is rejected fails
parsing and is answered with 400, not 405. -/
theorem claim3_counterexample :
    parse_request_line_secure "OPTIONS /idx HTTP/1.1" =
      Except.ok ("OPTIONS", "/idx", "HTTP/1.1") ∧
    parse_request_line_secure "POST /idx HTTP/1.1" =
      Except.error "Method not allowed" ∧
    handleRequestStatus decodePlain (fun _ => false) false
      "POST /idx HTTP/1.1" = 400 ∧
    (400 : Nat) ≠ 405 := by
  decide

/-- Claim C3, amended.  The request-line parser accepts exactly the methods
GET, HEAD and OPTIONS: whenever it returns a parsed triple the method is one
of those three; and whenever it rejects a request line (in particular for
any other method token such as POST), the ultra server answers with status
400. -/
theorem claim3_methods_and_status :
    (∀ line m p v, parse_request_line_secure line = Except.ok (m, p, v) →
      m = "GET" ∨ m = "HEAD" ∨ m = "OPTIONS") ∧
    (∀ decode hasRoute spa line e,
      parse_request_line_secure line = Except.error e →
      handleRequestStatus decode hasRoute spa line = 400) := by
  constructor
  · intro line m p v h
    unfold parse_request_line_secure at h
    split at h
    · cases h
    · split at h
      · split at h
        · split at h
          · split at h
            · cases h
            · rename_i hm _ _
              have h2 := Except.ok.inj h
              have hmeq : _ = m := congrArg Prod.fst h2
              subst hmeq
              have hd := by simpa [methodAllowed, decide_eq_true_eq] using hm
              tauto
          · cases h
        · cases h
      · cases h
  · intro decode hasRoute spa line e h
    unfold handleRequestStatus
    rw [h]

/-- Claim C3, witness: the amended theorem applied at the concrete request
lines `HEAD /a HTTP/1.1` (accepted, method among the three) and
`PUT /a HTTP/1.1` (method rejected, answered 400). -/
theorem claim3_methods_and_status_witness :
    (("HEAD" : String) = "GET" ∨ ("HEAD" : String) = "HEAD" ∨
      ("HEAD" : String) = "OPTIONS") ∧
    handleRequestStatus decodePlain (fun _ => false) false
      "PUT /a HTTP/1.1" = 400 :=
  ⟨claim3_methods_and_status.1 "HEAD /a HTTP/1.1" "HEAD" "/a" "HTTP/1.1"
      (by decide),
    claim3_methods_and_status.2 decodePlain (fun _ => false) false
      "PUT /a HTTP/1.1" "Method not allowed" (by decide)⟩

/-- Claim C4, counterexample.  The claim says every pre-built 200 response
carries §6's normative header set, including `Vary: Accept-Encoding` (for a
route with a non-identity variant) and all six security headers.  The
buffer `ResponseBuffer::build` produces for a Brotli variant contains no
Vary, no Strict-Transport-Security, no Permissions-Policy and no
X-DNS-Prefetch-Control header at all. -/
theorem claim4_counterexample :
    "Strict-Transport-Security" ∉
      (ResponseBuffer.buildHeaders "text/html" .Brotli "\"1-2\"" "d" "c"
        5).map Prod.fst ∧
    "Vary" ∉
      (ResponseBuffer.buildHeaders "text/html" .Brotli "\"1-2\"" "d" "c"
        5).map Prod.fst ∧
    "Permissions-Policy" ∉
      (ResponseBuffer.buildHeaders "text/html" .Brotli "\"1-2\"" "d" "c"
        5).map Prod.fst ∧
    "X-DNS-Prefetch-Control" ∉
      (ResponseBuffer.buildHeaders "text/html" .Brotli "\"1-2\"" "d" "c"
        5).map Prod.fst := by
  decide

/-- Claim C4, amended.  For every input, `ResponseBuffer::build` emits
exactly the headers Content-Type, Content-Encoding (iff the encoding is not
Identity, and placed directly after Content-Type rather than after
Cache-Control), Content-Length, ETag, Last-Modified, Cache-Control, and the
three fixed security headers `X-Content-Type-Options: nosniff`,
`X-Frame-Options: SAMEORIGIN` and
`Referrer-Policy: strict-origin-when-cross-origin`, in that order; it never
emits Vary, Strict-Transport-Security, Permissions-Policy or
X-DNS-Prefetch-Control, and the full buffer is the status line followed by
those header lines, a blank line and the body. -/
theorem claim4_build_header_set (ct : String) (enc : Encoding)
    (etag lm cc : String) (n : Nat) (body : String) :
    (ResponseBuffer.buildHeaders ct enc etag lm cc n).map Prod.fst =
      (if enc = .Identity then ["Content-Type"]
       else ["Content-Type", "Content-Encoding"]) ++
      ["Content-Length", "ETag", "Last-Modified", "Cache-Control",
       "X-Content-Type-Options", "X-Frame-Options", "Referrer-Policy"] ∧
    ("X-Content-Type-Options", "nosniff") ∈
      ResponseBuffer.buildHeaders ct enc etag lm cc n ∧
    ("X-Frame-Options", "SAMEORIGIN") ∈
      ResponseBuffer.buildHeaders ct enc etag lm cc n ∧
    ("Referrer-Policy", "strict-origin-when-cross-origin") ∈
      ResponseBuffer.buildHeaders ct enc etag lm cc n ∧
    "Vary" ∉ (ResponseBuffer.buildHeaders ct enc etag lm cc n).map Prod.fst ∧
    "Strict-Transport-Security" ∉
      (ResponseBuffer.buildHeaders ct enc etag lm cc n).map Prod.fst ∧
    "Permissions-Policy" ∉
      (ResponseBuffer.buildHeaders ct enc etag lm cc n).map Prod.fst ∧
    "X-DNS-Prefetch-Control" ∉
      (ResponseBuffer.buildHeaders ct enc etag lm cc n).map Prod.fst ∧
    ResponseBuffer.build ct enc etag lm cc body =
      "HTTP/1.1 200 OK\r\n" ++
        renderHeaderLines
          (ResponseBuffer.buildHeaders ct enc etag lm cc body.utf8ByteSize) ++
        "\r\n" ++ body := by
  cases enc <;>
    simp [ResponseBuffer.buildHeaders, ResponseBuffer.build,
      Encoding.header_value]

/-- Claim C4, witness: the amended theorem applied at a concrete Brotli
response, extracting the exact header-name sequence. -/
theorem claim4_build_header_set_witness :
    (ResponseBuffer.buildHeaders "text/html" .Brotli "\"1-2\"" "d" "c"
      5).map Prod.fst =
      ["Content-Type", "Content-Encoding", "Content-Length", "ETag",
       "Last-Modified", "Cache-Control", "X-Content-Type-Options",
       "X-Frame-Options", "Referrer-Policy"] :=
  (claim4_build_header_set "text/html" .Brotli "\"1-2\"" "d" "c" 5 "aaaaa").1

/-- A 1024-byte body (the compression threshold). -/
def big1024 : List Nat := List.replicate 1024 0

/-- A 1023-byte body (just below the compression threshold). -/
def small1023 : List Nat := List.replicate 1023 0

/-- Claim C8.  Whenever `CompressedContent::new` succeeds, the result keeps
the input as `plain`, and the three compressed variants are present if and
only if compression was requested and the body is at least 1024 bytes; in
the flag-off or short-body case the result is exactly the plain-only
record. -/
theorem claim8_variants_iff_threshold
    (gzipC brotliC zstdC : List Nat → Except String (List Nat))
    (content : List Nat) (flag : Bool) (r : CompressedContent)
    (h : CompressedContent.new gzipC brotliC zstdC content flag =
      Except.ok r) :
    r.plain = content ∧
    ((r.gzip.isSome ∧ r.brotli.isSome ∧ r.zstd.isSome) ↔
      (flag = true ∧ 1024 ≤ content.length)) ∧
    (flag = false ∨ content.length < 1024 →
      r = ⟨content, none, none, none⟩) := by
  unfold CompressedContent.new at h
  by_cases hc : (!flag || content.length < 1024) = true
  · rw [if_pos hc] at h
    have hr := (Except.ok.inj h).symm
    subst hr
    refine ⟨rfl, ?_, fun _ => rfl⟩
    simp only [Option.isSome_none]
    constructor
    · intro hfalse; exact absurd hfalse.1 (by simp)
    · intro hflag
      simp only [Bool.or_eq_true, Bool.not_eq_true', decide_eq_true_eq]
        at hc
      rcases hc with hf | hlen
      · rw [hflag.1] at hf; cases hf
      · omega
  · rw [if_neg hc] at h
    have hcond : flag = true ∧ 1024 ≤ content.length := by
      simp only [Bool.or_eq_true, Bool.not_eq_true', decide_eq_true_eq,
        not_or] at hc
      rcases hc with ⟨hf, hl⟩
      exact ⟨by simpa using hf, by omega⟩
    split at h
    · have hr := (Except.ok.inj h).symm
      subst hr
      exact ⟨rfl, by simp [hcond], fun habs => by
        rcases habs with hf | hl
        · rw [hf] at hcond; exact absurd hcond.1 (by simp)
        · omega⟩
    · cases h
    · cases h
    · cases h

/-- Claim C8, witness: the theorem applied to concrete (identity) codecs at
the 1024-byte boundary body (all three variants present) and at the
1023-byte body (result exactly plain-only). -/
theorem claim8_variants_iff_threshold_witness :
    (((⟨big1024, some big1024, some big1024, some big1024⟩ :
        CompressedContent).gzip.isSome ∧
      (⟨big1024, some big1024, some big1024, some big1024⟩ :
        CompressedContent).brotli.isSome ∧
      (⟨big1024, some big1024, some big1024, some big1024⟩ :
        CompressedContent).zstd.isSome) ↔
      (true = true ∧ 1024 ≤ big1024.length)) ∧
    (⟨small1023, none, none, none⟩ : CompressedContent) =
      ⟨small1023, none, none, none⟩ :=
  ⟨(claim8_variants_iff_threshold okCodec okCodec okCodec big1024 true
      ⟨big1024, some big1024, some big1024, some big1024⟩ rfl).2.1,
    (claim8_variants_iff_threshold okCodec okCodec okCodec small1023 true
      ⟨small1023, none, none, none⟩ rfl).2.2 (Or.inr (by decide))⟩

/-- Claim C9.  Every response buffer the embedded builders construct has a
Content-Length equal to the byte length of its body: `ResponseBuffer::build`
always emits `Content-Length: <body length>` (for every encoding),
`build_response` appends exactly that header, and the three fixed error
buffers (404 / 400 / 500) and two concrete rendered buffers check out when
parsed back. -/
theorem claim9_content_length :
    (∀ ct enc etag lm cc n,
      (ResponseBuffer.buildHeaders ct enc etag lm cc n).lookup
        "Content-Length" = some (toString n)) ∧
    (∀ hs body, ("Content-Length", toString body.utf8ByteSize) ∈
      buildResponseHeaders hs body) ∧
    contentLengthOf ResponseBuffer.not_found = some 9 ∧
    (bodySection ResponseBuffer.not_found).utf8ByteSize = 9 ∧
    contentLengthOf ResponseBuffer.bad_request = some 11 ∧
    (bodySection ResponseBuffer.bad_request).utf8ByteSize = 11 ∧
    contentLengthOf ResponseBuffer.internal_error = some 21 ∧
    (bodySection ResponseBuffer.internal_error).utf8ByteSize = 21 ∧
    contentLengthOf
      (ResponseBuffer.build "text/plain" .Brotli "\"1-2\"" "lm" "cc" "hello")
      = some 5 ∧
    bodySection
      (ResponseBuffer.build "text/plain" .Brotli "\"1-2\"" "lm" "cc" "hello")
      = "hello" ∧
    contentLengthOf
      (build_response 200 [("Content-Type", "text/plain")] "Hello, World!")
      = some 13 ∧
    bodySection
      (build_response 200 [("Content-Type", "text/plain")] "Hello, World!")
      = "Hello, World!" := by
  refine ⟨fun ct enc etag lm cc n => ?_, fun hs body => ?_,
    by decide, by decide, by decide, by decide, by decide, by decide,
    by decide, by decide, by decide, by decide⟩
  · cases enc <;> rfl
  · simp [buildResponseHeaders]

/-- Claim C9, witness: the universal parts of the theorem applied at a
concrete zstd-encoded header list and a concrete `build_response` call. -/
theorem claim9_content_length_witness :
    (ResponseBuffer.buildHeaders "text/css" .Zstd "\"a-b\"" "lm" "cc"
      77).lookup "Content-Length" = some "77" ∧
    ("Content-Length", "3") ∈
      buildResponseHeaders [("Content-Type", "text/plain")] "abc" :=
  ⟨claim9_content_length.1 "text/css" .Zstd "\"a-b\"" "lm" "cc" 77,
    claim9_content_length.2.1 [("Content-Type", "text/plain")] "abc"⟩

/-- Claim C10.  `get_best_encoding` always returns a pair whose label is one
of zstd / br / gzip / identity and whose bytes are exactly the stored
variant that label names (`variantFor`), so a compressed label is only ever
returned when that variant is present and the source's `unwrap`s cannot
panic; and when no substring-and-presence guard fires the result is
`("identity", plain)`. -/
theorem claim10_best_encoding_sound (cc : CompressedContent)
    (accept : String) :
    variantFor cc (cc.get_best_encoding accept).1 =
      some (cc.get_best_encoding accept).2 ∧
    (cc.get_best_encoding accept).1 ∈
      (["zstd", "br", "gzip", "identity"] : List String) ∧
    ((if containsSub accept "zstd" then cc.zstd else none) = none →
     (if containsSub accept "br" then cc.brotli else none) = none →
     (if containsSub accept "gzip" then cc.gzip else none) = none →
     cc.get_best_encoding accept = ("identity", cc.plain)) := by
  unfold CompressedContent.get_best_encoding
  rcases hz : (if containsSub accept "zstd" then cc.zstd else none) with
    _ | z
  · rcases hb : (if containsSub accept "br" then cc.brotli else none) with
      _ | b
    · rcases hg : (if containsSub accept "gzip" then cc.gzip else none) with
        _ | g
      · exact ⟨by simp [variantFor], by simp, fun _ _ _ => rfl⟩
      · have hgs : cc.gzip = some g := by
          by_cases hcg : containsSub accept "gzip" = true
          · rwa [if_pos hcg] at hg
          · rw [if_neg hcg] at hg; exact Option.noConfusion hg
        exact ⟨by simp [variantFor, hgs], by simp,
          fun _ _ habs => Option.noConfusion habs⟩
    · have hbs : cc.brotli = some b := by
        by_cases hcb : containsSub accept "br" = true
        · rwa [if_pos hcb] at hb
        · rw [if_neg hcb] at hb; exact Option.noConfusion hb
      exact ⟨by simp [variantFor, hbs], by simp,
        fun _ habs _ => Option.noConfusion habs⟩
  · have hzs : cc.zstd = some z := by
      by_cases hcz : containsSub accept "zstd" = true
      · rwa [if_pos hcz] at hz
      · rw [if_neg hcz] at hz; exact Option.noConfusion hz
    exact ⟨by simp [variantFor, hzs], by simp,
      fun habs _ _ => Option.noConfusion habs⟩

/-- Claim C10, witness: the theorem applied to a concrete plain-only value
and `Accept-Encoding: gzip` — no guard fires (the gzip variant is absent),
so the identity pair is returned. -/
theorem claim10_best_encoding_sound_witness :
    CompressedContent.get_best_encoding ⟨[9], none, none, none⟩ "gzip" =
      ("identity", [9]) :=
  (claim10_best_encoding_sound ⟨[9], none, none, none⟩ "gzip").2.2
    (by decide) (by decide) (by decide)

/-- Claim C7, counterexample.  The claim says every built route's ETag is
the quoted `<mtime-sec hex>-<length hex>` pair and that the nanosecond-hash
formula is never observed.  A route built by
`UltraFastServer::create_fast_route` (whose headers `ultra_server.rs` writes
to clients verbatim) carries `generate_fast_etag`'s single quoted hash —
here `"12a05f203"` for the file `pub/index.html` at mtime 5 s — which is not
the `"5-3"` the claimed formula produces for the same file. -/
theorem claim7_counterexample :
    (create_fast_route env0 "pub/index.html" 5000000000).map
      (fun p => p.2.headers.etag) = Except.ok "\"12a05f203\"" ∧
    generate_etag 5000000000 [7, 8, 9] = "\"5-3\"" ∧
    ("\"12a05f203\"" : String) ≠ "\"5-3\"" := by
  decide

/-- Claim C7, amended.  `NanoWeb::generate_etag` (routes.rs) renders exactly
the quoted lowercase-hex pair `<mtime-sec>-<length>`, and the two hex fields
round-trip (`fromHex ∘ toHex = some`), so that formula is faithful;
`UltraFastServer::generate_fast_etag` (fast_routes.rs) instead renders one
quoted hash of the nanosecond mtime and the length, whose interior contains
no `-`, and every route built by `create_fast_route` carries that
nanosecond-hash ETag in its served headers. -/
theorem claim7_etag_formats :
    (∀ m c, generate_etag m c =
      "\"" ++ toHex (m / 1000000000) ++ "-" ++ toHex c.length ++ "\"") ∧
    (∀ n, fromHex (toHex n) = some n) ∧
    (∀ (hash : Nat → Nat → Nat) (m : Nat) (c : List Nat),
      generate_fast_etag hash m c = "\"" ++ toHex (hash m c.length) ++ "\"") ∧
    (∀ (hash : Nat → Nat → Nat) (m : Nat) (c : List Nat),
      '-' ∉ (toHex (hash m c.length)).data) ∧
    (∀ env fp m url r, create_fast_route env fp m = Except.ok (url, r) →
      r.headers.etag = generate_fast_etag env.ahash m r.content.plain) := by
  refine ⟨fun m c => rfl, fromHex_toHex, fun hash m c => rfl,
    fun hash m c => dash_not_mem_toHex _, ?_⟩
  intro env fp m url r h
  unfold create_fast_route at h
  split at h
  · cases h
  · split at h
    · cases h
    · split at h
      · cases h
      · have h2 := Except.ok.inj h
        have h4 : _ = r := congrArg Prod.snd h2
        subst h4
        rfl

/-- Claim C7, witness: the amended theorem's last part applied at the
concrete fast route for `pub/index.html` (mtime 5 s), whose served ETag is
the nanosecond-hash rendering. -/
theorem claim7_etag_formats_witness :
    ∃ url r,
      create_fast_route env0 "pub/index.html" 5000000000 =
        Except.ok (url, r) ∧
      r.headers.etag = generate_fast_etag env0.ahash 5000000000
        r.content.plain := by
  have hok : create_fast_route env0 "pub/index.html" 5000000000 =
      Except.ok ("/index.html",
        ⟨⟨[7, 8, 9], none, none, none⟩, "pub/index.html", 5000000000,
          ⟨"text/html", "date-5", "\"12a05f203\"",
            "public, max-age=900"⟩⟩) := by decide
  exact ⟨_, _, hok,
    claim7_etag_formats.2.2.2.2 env0 "pub/index.html" 5000000000 _ _ hok⟩

/-- Claim C5, counterexample.  The claim says a refresh replaces every index
entry of the route, including any directory alias.  Starting from a state
where both `/index.html` and its alias `/` hold the stale buffer (etag
`"3-2"`) and the file on disk is newer (mtime 5 s), `refresh_if_modified`
on `/` succeeds — but only the canonical `/index.html` entry is replaced
(etag `"5-3"`); the alias `/` keeps the stale buffer, so the route's entries
now disagree. -/
theorem claim5_counterexample :
    (match refresh_if_modified env0 st0 "/" with
      | .ok (true, st) =>
        ((st.respIdentity.lookup "/").map PreBuilt.etag,
         (st.respIdentity.lookup "/index.html").map PreBuilt.etag)
      | _ => (none, none)) = (some "\"3-2\"", some "\"5-3\"") ∧
    ("\"3-2\"" : String) ≠ "\"5-3\"" := by
  decide

/-- Claim C5, amended.  When the queried URL has a route whose source file
has a newer mtime and the rebuild succeeds, `refresh_if_modified` returns
`true` and the new state holds, under the rebuilt file's canonical URL
`newUrl` (not the queried alias), a fresh identity buffer and fresh buffers
for each variant present in the rebuilt content, all sharing the etag,
last-modified and cache-control derived from the new mtime and content;
per-encoding maps for variants absent from the rebuild and every response
entry under any other key (in particular a directory alias) are left
exactly as they were; and if the mtime stat fails the operation errors
without producing a state, so the stale entries continue to be served. -/
theorem claim5_refresh_behavior :
    (∀ (env : Env) (st : ServerState) (url : String) (route : CachedRoute)
      (mNow : Nat) (content : List Nat) (compressed : CompressedContent)
      (newUrl : String),
      st.routes.lookup url = some route →
      env.statMtime route.path = some mNow →
      route.modified < mNow →
      env.readFile route.path = some content →
      CompressedContent.new env.gzipC env.brotliC env.zstdC
        (routeProcessed env route.path content)
        (get_mime_config env.guessMime route.path).is_compressible =
        Except.ok compressed →
      filePathToUrl route.path env.publicDir = Except.ok newUrl →
      ∃ stF, refresh_if_modified env st url = Except.ok (true, stF) ∧
        stF.respIdentity.lookup newUrl = some
          ⟨compressed.plain,
            (get_mime_config env.guessMime route.path).mime_type, none,
            generate_etag mNow compressed.plain, env.httpDate mNow,
            get_cache_control
              (get_mime_config env.guessMime route.path).mime_type⟩ ∧
        (∀ d, compressed.gzip = some d →
          stF.respGzip.lookup newUrl = some
            ⟨d, (get_mime_config env.guessMime route.path).mime_type,
              some "gzip", generate_etag mNow compressed.plain,
              env.httpDate mNow,
              get_cache_control
                (get_mime_config env.guessMime route.path).mime_type⟩) ∧
        (compressed.gzip = none → stF.respGzip = st.respGzip) ∧
        (∀ d, compressed.brotli = some d →
          stF.respBrotli.lookup newUrl = some
            ⟨d, (get_mime_config env.guessMime route.path).mime_type,
              some "br", generate_etag mNow compressed.plain,
              env.httpDate mNow,
              get_cache_control
                (get_mime_config env.guessMime route.path).mime_type⟩) ∧
        (compressed.brotli = none → stF.respBrotli = st.respBrotli) ∧
        (∀ d, compressed.zstd = some d →
          stF.respZstd.lookup newUrl = some
            ⟨d, (get_mime_config env.guessMime route.path).mime_type,
              some "zstd", generate_etag mNow compressed.plain,
              env.httpDate mNow,
              get_cache_control
                (get_mime_config env.guessMime route.path).mime_type⟩) ∧
        (compressed.zstd = none → stF.respZstd = st.respZstd) ∧
        stF.routes.lookup newUrl = some ⟨compressed, route.path, mNow⟩ ∧
        (∀ p, p ≠ newUrl →
          stF.respIdentity.lookup p = st.respIdentity.lookup p)) ∧
    (∀ (env : Env) (st : ServerState) (url : String) (route : CachedRoute),
      st.routes.lookup url = some route →
      env.statMtime route.path = none →
      refresh_if_modified env st url = Except.error "metadata failed") := by
  constructor
  · intro env st url route mNow content compressed newUrl h1 h2 h3 h4 h5 h6
    simp only [refresh_if_modified, h1, h2]
    rw [if_pos h3]
    simp only [create_route, h4, h5, h6]
    refine ⟨_, rfl, ?_, ?_, ?_, ?_, ?_, ?_, ?_, ?_, ?_⟩
    · simp [List.lookup]
    · intro d hd
      simp [insOpt, hd, List.lookup]
    · intro hd
      simp [insOpt, hd]
    · intro d hd
      simp [insOpt, hd, List.lookup]
    · intro hd
      simp [insOpt, hd]
    · intro d hd
      simp [insOpt, hd, List.lookup]
    · intro hd
      simp [insOpt, hd]
    · simp [List.lookup]
    · intro p hp
      have hb : (p == newUrl) = false := beq_eq_false_iff_ne.mpr hp
      simp [List.lookup, hb]
  · intro env st url route h1 h2
    simp only [refresh_if_modified, h1, h2]

/-- Claim C5, witness: the success part of the amended theorem applied to
the concrete environment and state of the counterexample, with every
hypothesis discharged by evaluation. -/
theorem claim5_refresh_behavior_witness :
    ∃ stF, refresh_if_modified env0 st0 "/" = Except.ok (true, stF) := by
  obtain ⟨stF, hok, _⟩ :=
    claim5_refresh_behavior.1 env0 st0 "/" r0 5000000000 [7, 8, 9]
      ⟨[7, 8, 9], none, none, none⟩ "/index.html"
      (by decide) (by decide) (by decide) (by decide) (by decide) (by decide)
  exact ⟨stF, hok⟩

end NanoWeb
